import Mathlib

/-!
Shallow embedding of the dynamic array `custom::Vector<T>` and its iterator
`custom::VectorIterator<Vector>` from DataStructuresC++/Vector.h, together with
theorems settling the specification claims about them.

Modelling conventions:
* `size_t` quantities (`mSize`, `capacity`, indices) are `Nat`.
* The heap array `data` is modelled by a pair of fields: `store : Nat → Option T`
  gives the content of each slot (`none` for a slot that currently holds no
  constructed value, i.e. uninitialized memory), and `alloc : Bool` records
  whether the `data` pointer is non-null.  `::operator new` never returns a null
  pointer (it is called under `noexcept`, so failure terminates the process),
  hence every constructor-performed allocation sets `alloc := true` — including
  a zero-byte allocation, for which C++ guarantees a non-null result.
* Member functions that throw are embedded as `Except VErr _`; the C++ methods
  throw before performing any mutation, so an `error` result corresponds to the
  object being left exactly as it was.
* Iterator pointers (`mPtr`, `mBegin`, `mEnd`) are modelled as `Int` addresses
  measured in element-sized units; `begin()` hands out the address of `data`
  and `end()` the address `data + mSize`, exactly as the source does.
-/

set_option autoImplicit false

namespace DSCpp

/-- Error kinds of the specification's taxonomy (§7), naming the std exceptions
thrown in Vector.h: `emptyContainer` is the `std::runtime_error` of
`pop_back`/`front`/`back`, `indexOutOfRange` the `std::invalid_argument` of
`operator[]`, `outOfRange` the `std::out_of_range` of the iterator's
increment/decrement/offset operators, `invalidArgument` the
`std::invalid_argument` of `advance`, and `invalidState` the
`std::runtime_error` of dereference and of `advance` started at an invalid
position. -/
inductive VErr where
  | emptyContainer
  | indexOutOfRange
  | outOfRange
  | invalidArgument
  | invalidState
deriving DecidableEq

/-- State of a `custom::Vector<T>` object: logical size `mSize`, allocated slot
count `capacity`, slot contents `store` (`none` = uninitialized memory) and
whether the `data` pointer is non-null (`alloc`). -/
structure Vec (T : Type) where
  mSize : Nat
  capacity : Nat
  store : Nat → Option T
  alloc : Bool

/-- Default constructor `Vector()`: capacity 0, size 0, `data = nullptr`. -/
def Vec.mkDefault {T : Type} : Vec T :=
  ⟨0, 0, fun _ => none, false⟩

/-- Constructor `Vector(size_t capacity)`: size 0, allocates `capacity`
uninitialized slots.  Even for `capacity == 0` the call
`::operator new(0)` returns a non-null pointer, so `alloc := true`
unconditionally. -/
def Vec.mkCap {T : Type} (c : Nat) : Vec T :=
  ⟨0, c, fun _ => none, true⟩

/-- Constructor `Vector(std::initializer_list<T> init)`: `mSize = init.size()`;
capacity is 10 when `mSize < 10` and `mSize + mSize / 2` otherwise; the loop
`data[i] = init[i]` fills slots `[0, mSize)`. -/
def Vec.mkList {T : Type} (l : List T) : Vec T :=
  ⟨l.length, if l.length < 10 then 10 else l.length + l.length / 2,
   fun i => l.get? i, true⟩

/-- The moved-from state: the move constructor and move assignment set the
source's `data = nullptr`, `capacity = 0`, `mSize = 0`. -/
def Vec.movedReset {T : Type} : Vec T :=
  ⟨0, 0, fun _ => none, false⟩

/-- Embeds the statement `data[mSize++] = value` (and equally the placement-new
of `emplace_back`): writes the value into slot `mSize`, then increments
`mSize`. -/
def Vec.writeAtEnd {T : Type} (v : Vec T) (x : T) : Vec T :=
  { v with mSize := v.mSize + 1,
           store := fun i => if i = v.mSize then some x else v.store i }

/-- Private member `grow()`: if `data` is null, set capacity to 1 and allocate
(fresh, uninitialized storage); otherwise allocate `capacity + capacity / 2`
slots, relocate the `mSize` live elements in index order and destroy the old
ones, leaving slots from `mSize` on uninitialized. -/
def Vec.grow {T : Type} (v : Vec T) : Vec T :=
  if v.alloc = false then
    { v with capacity := 1, alloc := true, store := fun _ => none }
  else
    { v with capacity := v.capacity + v.capacity / 2,
             store := fun i => if i < v.mSize then v.store i else none }

/-- Private member `init_grow(cap)`: same relocation as `grow` but with the
capacity given by the caller. -/
def Vec.initGrow {T : Type} (v : Vec T) (cap : Nat) : Vec T :=
  if v.alloc = false then
    { v with capacity := cap, alloc := true, store := fun _ => none }
  else
    { v with capacity := cap,
             store := fun i => if i < v.mSize then v.store i else none }

/-- Private member `shrink()`: allocates `capacity - capacity / 2` slots and
relocates the `mSize` live elements. -/
def Vec.shrink {T : Type} (v : Vec T) : Vec T :=
  { v with capacity := v.capacity - v.capacity / 2,
           store := fun i => if i < v.mSize then v.store i else none }

/-- Member `push_back(value)` (copy and move overloads have the same state
effect): `if (mSize >= capacity) grow(); data[mSize++] = value;`. -/
def Vec.pushBack {T : Type} (v : Vec T) (x : T) : Vec T :=
  (if v.capacity ≤ v.mSize then v.grow else v).writeAtEnd x

/-- Member `emplace_back(args...)`: same capacity check and growth as
`push_back`, then placement-constructs the element in slot `mSize`.  The
element constructed from the forwarded arguments is passed here already
built. -/
def Vec.emplaceBack {T : Type} (v : Vec T) (x : T) : Vec T :=
  (if v.capacity ≤ v.mSize then v.grow else v).writeAtEnd x

/-- The appending loop of `push_back(std::initializer_list<T>)`: each element
is written by `data[mSize++] = ...` in list order. -/
def Vec.writeAtEndAll {T : Type} (v : Vec T) (l : List T) : Vec T :=
  l.foldl Vec.writeAtEnd v

/-- Member `push_back(std::initializer_list<T> list)`: with
`new_size = mSize + list.size()`, calls `init_grow(new_size + new_size / 2)`
when `new_size >= capacity`, then appends every element in order. -/
def Vec.pushBackList {T : Type} (v : Vec T) (l : List T) : Vec T :=
  (if v.capacity ≤ v.mSize + l.length
   then v.initGrow (v.mSize + l.length + (v.mSize + l.length) / 2)
   else v).writeAtEndAll l

/-- The state right after the statement `data[--mSize].~T()` of `pop_back`:
`mSize` decremented and the last live slot destroyed (uninitialized again). -/
def Vec.popped {T : Type} (v : Vec T) : Vec T :=
  { v with mSize := v.mSize - 1,
           store := fun i => if i = v.mSize - 1 then none else v.store i }

/-- Member `pop_back()`: throws when `mSize == 0`; otherwise
`data[--mSize].~T()` (the slot becomes uninitialized), then `shrink()` when
the new `mSize` is below `capacity / 2`. -/
def Vec.popBack {T : Type} (v : Vec T) : Except VErr (Vec T) :=
  if v.mSize ≠ 0 then
    if v.popped.mSize < v.capacity / 2 then Except.ok v.popped.shrink
    else Except.ok v.popped
  else
    Except.error VErr.emptyContainer

/-- Member `front()` (both overloads): throws when `mSize == 0`, otherwise
returns `data[0]`. -/
def Vec.front {T : Type} (v : Vec T) : Except VErr (Option T) :=
  if v.mSize ≠ 0 then Except.ok (v.store 0) else Except.error VErr.emptyContainer

/-- Member `back()` (both overloads): throws when `mSize == 0`, otherwise
returns `data[mSize - 1]`. -/
def Vec.back {T : Type} (v : Vec T) : Except VErr (Option T) :=
  if v.mSize ≠ 0 then Except.ok (v.store (v.mSize - 1))
  else Except.error VErr.emptyContainer

/-- Member `operator[](index)` (mutable and const overloads are identical):
`index >= 0` is vacuous for an unsigned index, so the access succeeds exactly
when `index < capacity`, returning the slot's (possibly uninitialized)
content. -/
def Vec.getIdx {T : Type} (v : Vec T) (i : Nat) : Except VErr (Option T) :=
  if i < v.capacity then Except.ok (v.store i)
  else Except.error VErr.indexOutOfRange

/-- Member `empty()`: `mSize == 0`. -/
def Vec.empty {T : Type} (v : Vec T) : Bool :=
  v.mSize == 0

/-- Member `clear()`: destroys the elements in slots `[0, mSize)` and sets
`mSize = 0`; capacity and allocation are untouched. -/
def Vec.clear {T : Type} (v : Vec T) : Vec T :=
  { v with mSize := 0,
           store := fun i => if i < v.mSize then none else v.store i }

/-- Copy constructor (and, for a distinct non-self target, the end state of
copy assignment): a fresh allocation of `other.capacity` slots whose first
`mSize` slots are copies of the live elements. -/
def Vec.copy {T : Type} (v : Vec T) : Vec T :=
  ⟨v.mSize, v.capacity, fun i => if i < v.mSize then v.store i else none, true⟩

/-- Move constructor `Vector(Vector&& other)`: the new object takes `other`'s
`data`/`capacity`/`mSize` verbatim and `other` is reset to the empty state.
Returns (constructed object, state of the source afterwards).  The function is
total: the source is `noexcept`. -/
def Vec.moveCtor {T : Type} (src : Vec T) : Vec T × Vec T :=
  (⟨src.mSize, src.capacity, src.store, src.alloc⟩, Vec.movedReset)

/-- Move assignment `operator=(Vector&& other)` for distinct objects: the
target's old contents are destroyed and its storage released (when non-empty),
then it takes `other`'s fields verbatim and `other` is reset.  Returns
(target afterwards, source afterwards).  Total: the source is `noexcept`. -/
def Vec.moveAssign {T : Type} (_tgt src : Vec T) : Vec T × Vec T :=
  (⟨src.mSize, src.capacity, src.store, src.alloc⟩, Vec.movedReset)

/-- State of a `VectorIterator`: the three member pointers as element-unit
addresses. -/
structure VIter where
  mPtr : Int
  mBegin : Int
  mEnd : Int
deriving DecidableEq

/-- Member `begin()`: `Iterator(data, data, &data[mSize])`, with `base` the
address of `data`. -/
def Vec.beginIter {T : Type} (v : Vec T) (base : Int) : VIter :=
  ⟨base, base, base + v.mSize⟩

/-- Member `end()`: `Iterator(&data[mSize], data, &data[mSize])`. -/
def Vec.endIter {T : Type} (v : Vec T) (base : Int) : VIter :=
  ⟨base + v.mSize, base, base + v.mSize⟩

/-- Iterator `operator==`: compares only the current position pointers. -/
def VIter.eqPos (a b : VIter) : Bool :=
  a.mPtr == b.mPtr

/-- Prefix `operator++`: throws `std::out_of_range` when `mPtr == mEnd`,
otherwise advances one slot. -/
def VIter.inc (it : VIter) : Except VErr VIter :=
  if it.mPtr ≠ it.mEnd then Except.ok { it with mPtr := it.mPtr + 1 }
  else Except.error VErr.outOfRange

/-- Postfix `operator++`: same guard; on success returns (copy at the old
position, iterator after the inner prefix increment). -/
def VIter.incPost (it : VIter) : Except VErr (VIter × VIter) :=
  if it.mPtr ≠ it.mEnd then it.inc.map fun j => (it, j)
  else Except.error VErr.outOfRange

/-- Prefix `operator--`: throws `std::out_of_range` when `mPtr == mBegin`,
otherwise retreats one slot. -/
def VIter.dec (it : VIter) : Except VErr VIter :=
  if it.mPtr ≠ it.mBegin then Except.ok { it with mPtr := it.mPtr - 1 }
  else Except.error VErr.outOfRange

/-- Postfix `operator--`: same guard; on success returns (copy at the old
position, iterator after the inner prefix decrement). -/
def VIter.decPost (it : VIter) : Except VErr (VIter × VIter) :=
  if it.mPtr ≠ it.mBegin then it.dec.map fun j => (it, j)
  else Except.error VErr.outOfRange

/-- Dereference `operator*`: throws `std::runtime_error` unless
`mPtr != mEnd && mPtr != mBegin - 1`; on success reads the element at `mPtr`
(returned here as the address read). -/
def VIter.deref (it : VIter) : Except VErr Int :=
  if it.mPtr ≠ it.mEnd ∧ it.mPtr ≠ it.mBegin - 1 then Except.ok it.mPtr
  else Except.error VErr.invalidState

/-- The forward loop of `advance`: `while (mPtr != mEnd && moved < distance)
{ ++*this; ++moved; }`, with the remaining step budget as fuel.  Returns
(number of steps taken, final iterator). -/
def VIter.advFwd : VIter → Nat → Nat × VIter
  | it, 0 => (0, it)
  | it, r + 1 =>
    if it.mPtr ≠ it.mEnd then
      let p := VIter.advFwd { it with mPtr := it.mPtr + 1 } r
      (p.1 + 1, p.2)
    else
      (0, it)

/-- The backward loop of `advance`: `while (mPtr != mBegin && moved > distance)
{ --*this; --moved; }`, counting steps positively. -/
def VIter.advBwd : VIter → Nat → Nat × VIter
  | it, 0 => (0, it)
  | it, r + 1 =>
    if it.mPtr ≠ it.mBegin then
      let p := VIter.advBwd { it with mPtr := it.mPtr - 1 } r
      (p.1 + 1, p.2)
    else
      (0, it)

/-- Member `advance(distance)`: throws `std::runtime_error` when started at
`mEnd` or at `mBegin - 1`; otherwise walks one slot at a time (forward when
`distance > 0`, else backward), stopping at the range boundary, and throws
`std::invalid_argument` when fewer than `|distance|` steps were taken. -/
def VIter.advance (it : VIter) (distance : Int) : Except VErr VIter :=
  if it.mPtr ≠ it.mEnd ∧ it.mPtr ≠ it.mBegin - 1 then
    if 0 < distance then
      if ((it.advFwd distance.toNat).1 : Int) = distance then
        Except.ok (it.advFwd distance.toNat).2
      else Except.error VErr.invalidArgument
    else
      if -(((it.advBwd (-distance).toNat).1 : Nat) : Int) = distance then
        Except.ok (it.advBwd (-distance).toNat).2
      else Except.error VErr.invalidArgument
  else
    Except.error VErr.invalidState

/-- A default-constructed `Vector<int>` after two single-element `push_back`
calls: the first triggers the bootstrap branch of `grow()` (capacity 1), the
second triggers the general branch, which computes `1 + 1 / 2 == 1`. -/
def twoPushes : Vec Nat :=
  ((Vec.mkDefault : Vec Nat).pushBack 10).pushBack 20

/-- C1: the claim that `0 ≤ size ≤ capacity` holds after every
push/pop/emplace fails on the code: after two `push_back` calls on a
default-constructed Vector, `mSize == 2` exceeds `capacity == 1` (the second
grow computes `1 + 1/2 == 1` and does not enlarge the storage), and index 1,
which lies in `[0, size)`, raises `IndexOutOfRangeError`.  This contradicts
the code's own documentation, which promises a default capacity of 10 and a
capacity "one and a half times larger" after each grow. -/
theorem c1_size_capacity_bug :
    twoPushes.mSize = 2 ∧ twoPushes.capacity = 1 ∧
    ¬ twoPushes.mSize ≤ twoPushes.capacity ∧
    twoPushes.getIdx 1 = Except.error VErr.indexOutOfRange :=
  ⟨rfl, rfl, by decide, rfl⟩

/-- C2: the round-trip claim fails at N = 2: pushing 10 then 20 into a
default-constructed Vector gives `size() == 2` as claimed, and index 0 reads
back 10, but reading index 1 raises `IndexOutOfRangeError` instead of
returning 20, because the capacity is stuck at 1. -/
theorem c2_pushback_roundtrip_bug :
    twoPushes.mSize = 2 ∧
    twoPushes.getIdx 0 = Except.ok (some 10) ∧
    twoPushes.getIdx 1 = Except.error VErr.indexOutOfRange :=
  ⟨rfl, rfl, rfl⟩

/-- C3 counterexample: for an initializer list of n = 8 values the constructor
sets capacity to 10 (branch `mSize < 10`), but the claimed formula
`max(10, n + n/2)` gives 12. -/
theorem c3_capacity_counterexample :
    (Vec.mkList (List.replicate 8 (0 : Nat))).mSize = 8 ∧
    (Vec.mkList (List.replicate 8 (0 : Nat))).capacity = 10 ∧
    (Vec.mkList (List.replicate 8 (0 : Nat))).capacity ≠ max 10 (8 + 8 / 2) :=
  ⟨rfl, rfl, by decide⟩

/-- C3 amended: a Vector built from an initializer list of n values has
`size == n`, capacity 10 when `n < 10` and `n + n/2` otherwise (this differs
from `max(10, n + n/2)` exactly at n = 8 and n = 9), and element i reads back
the list's i-th value for every `i < n`. -/
theorem c3_init_list_shape {T : Type} (l : List T) :
    (Vec.mkList l).mSize = l.length ∧
    (Vec.mkList l).capacity = (if l.length < 10 then 10 else l.length + l.length / 2) ∧
    ∀ i : Nat, ∀ h : i < l.length,
      (Vec.mkList l).getIdx i = Except.ok (some (l.get ⟨i, h⟩)) := by
  refine ⟨rfl, rfl, ?_⟩
  intro i h
  have hcap : i < (Vec.mkList l).capacity := by
    show i < (if l.length < 10 then 10 else l.length + l.length / 2)
    split <;> omega
  unfold Vec.getIdx
  rw [if_pos hcap]
  show Except.ok (l.get? i) = _
  rw [List.get?_eq_get h]

/-- C3 witness: the list `[3, 4]` has length 2 and the constructed Vector's
index 1 reads back 4. -/
theorem c3_init_list_shape_witness :
    (1 : Nat) < ([3, 4] : List Nat).length ∧
    (Vec.mkList ([3, 4] : List Nat)).getIdx 1 = Except.ok (some 4) :=
  ⟨by decide, (c3_init_list_shape [3, 4]).2.2 1 (by decide)⟩

/-- C6: `operator[]` (identical for the mutable and const overloads) raises
`IndexOutOfRangeError` exactly when the index reaches the allocated capacity;
in particular any index in `[size, capacity)` is accessed without error, the
bound checked being the capacity, not the logical size. -/
theorem c6_index_capacity_check {T : Type} (v : Vec T) (i : Nat) :
    (v.getIdx i = Except.error VErr.indexOutOfRange ↔ v.capacity ≤ i) ∧
    (v.mSize ≤ i → i < v.capacity → v.getIdx i = Except.ok (v.store i)) := by
  unfold Vec.getIdx
  constructor
  · by_cases h : i < v.capacity
    · simp [h]
    · simp [h]
      omega
  · intro h1 h2
    rw [if_pos h2]

/-- C6 witness: on `Vector(5)` (size 0, capacity 5) the index 3 lies in
`[size, capacity)` and the access succeeds, returning the uninitialized
slot. -/
theorem c6_witness :
    (Vec.mkCap (T := Nat) 5).mSize ≤ 3 ∧ (3 : Nat) < (Vec.mkCap (T := Nat) 5).capacity ∧
    (Vec.mkCap (T := Nat) 5).getIdx 3 = Except.ok none :=
  ⟨by decide, by decide, (c6_index_capacity_check (Vec.mkCap 5) 3).2 (by decide) (by decide)⟩

/-- C7: prefix and postfix increment fail with `OutOfRangeError` when the
iterator's position equals `mEnd`, prefix and postfix decrement fail with
`OutOfRangeError` when the position equals `mBegin`, and dereference fails
with `InvalidStateError` at `mEnd`.  In the embedding a failing operation
returns only the error, mirroring that the C++ methods throw before mutating
`mPtr`, so the position is unchanged in every failing case. -/
theorem c7_iterator_bounds (it : VIter) :
    (it.mPtr = it.mEnd →
      it.inc = Except.error VErr.outOfRange ∧
      it.incPost = Except.error VErr.outOfRange ∧
      it.deref = Except.error VErr.invalidState) ∧
    (it.mPtr = it.mBegin →
      it.dec = Except.error VErr.outOfRange ∧
      it.decPost = Except.error VErr.outOfRange) := by
  constructor
  · intro h
    refine ⟨?_, ?_, ?_⟩ <;> simp [VIter.inc, VIter.incPost, VIter.deref, h]
  · intro h
    refine ⟨?_, ?_⟩ <;> simp [VIter.dec, VIter.decPost, h]

/-- C7 witness: the iterator of an empty Vector sits at `begin = end`, and all
five failing operations signal the claimed errors there. -/
theorem c7_witness :
    (⟨0, 0, 0⟩ : VIter).inc = Except.error VErr.outOfRange ∧
    (⟨0, 0, 0⟩ : VIter).incPost = Except.error VErr.outOfRange ∧
    (⟨0, 0, 0⟩ : VIter).deref = Except.error VErr.invalidState ∧
    (⟨0, 0, 0⟩ : VIter).dec = Except.error VErr.outOfRange ∧
    (⟨0, 0, 0⟩ : VIter).decPost = Except.error VErr.outOfRange :=
  ⟨((c7_iterator_bounds ⟨0, 0, 0⟩).1 rfl).1, ((c7_iterator_bounds ⟨0, 0, 0⟩).1 rfl).2.1,
   ((c7_iterator_bounds ⟨0, 0, 0⟩).1 rfl).2.2, ((c7_iterator_bounds ⟨0, 0, 0⟩).2 rfl).1,
   ((c7_iterator_bounds ⟨0, 0, 0⟩).2 rfl).2⟩

/-- C9: after a move construction or a move assignment from `src` (into a
distinct object), the new holder has exactly `src`'s pre-move size, capacity
and contents, while `src` is left as a valid empty Vector: size 0, capacity 0,
null storage, `empty() == true`.  Both operations are embedded as total
functions, matching the `noexcept` contract (the move never throws). -/
theorem c9_move_semantics {T : Type} (tgt src : Vec T) :
    (src.moveCtor.1.mSize = src.mSize ∧ src.moveCtor.1.capacity = src.capacity ∧
      (∀ i, src.moveCtor.1.store i = src.store i) ∧
      src.moveCtor.2.mSize = 0 ∧ src.moveCtor.2.capacity = 0 ∧
      src.moveCtor.2.alloc = false ∧ src.moveCtor.2.empty = true) ∧
    ((Vec.moveAssign tgt src).1.mSize = src.mSize ∧
      (Vec.moveAssign tgt src).1.capacity = src.capacity ∧
      (∀ i, (Vec.moveAssign tgt src).1.store i = src.store i) ∧
      (Vec.moveAssign tgt src).2.mSize = 0 ∧ (Vec.moveAssign tgt src).2.capacity = 0 ∧
      (Vec.moveAssign tgt src).2.alloc = false ∧ (Vec.moveAssign tgt src).2.empty = true) :=
  ⟨⟨rfl, rfl, fun _ => rfl, rfl, rfl, rfl, rfl⟩,
   ⟨rfl, rfl, fun _ => rfl, rfl, rfl, rfl, rfl⟩⟩

/-- C10: for every Vector (any size and capacity, including the
default-constructed one with null storage, whose base address is then 0),
`begin() == end()` under the iterator equality — which compares only the
current position pointers — holds exactly when the Vector is empty. -/
theorem c10_begin_end_empty {T : Type} (v : Vec T) (base : Int) :
    VIter.eqPos (v.beginIter base) (v.endIter base) = true ↔ v.mSize = 0 := by
  show (base == base + (v.mSize : Int)) = true ↔ v.mSize = 0
  rw [beq_iff_eq]
  omega

/-- C5: `pop_back`, `front` and `back` signal `EmptyContainerError` exactly
when `mSize == 0` (the throw happens before any mutation, so a failing call is
embedded as a pure `error` result and the object is unchanged); a successful
`pop_back` destroys the last live element (its slot reads back as
uninitialized), decrements the size by one, keeps the remaining contents, and
ends with capacity `capacity - capacity / 2` exactly when the new size is
below `capacity / 2`, and with the old capacity otherwise. -/
theorem c5_pop_front_back_empty {T : Type} (v : Vec T) :
    (v.popBack = Except.error VErr.emptyContainer ↔ v.mSize = 0) ∧
    (v.front = Except.error VErr.emptyContainer ↔ v.mSize = 0) ∧
    (v.back = Except.error VErr.emptyContainer ↔ v.mSize = 0) ∧
    (v.mSize ≠ 0 →
      v.popBack.map Vec.mSize = Except.ok (v.mSize - 1) ∧
      v.popBack.map Vec.capacity =
        Except.ok (if v.mSize - 1 < v.capacity / 2
                   then v.capacity - v.capacity / 2 else v.capacity) ∧
      v.popBack.map (fun w => w.store (v.mSize - 1)) = Except.ok none ∧
      (∀ i, i < v.mSize - 1 →
        v.popBack.map (fun w => w.store i) = Except.ok (v.store i))) := by
  by_cases hm : v.mSize = 0
  · unfold Vec.popBack Vec.front Vec.back
    simp [hm]
  · unfold Vec.popBack Vec.front Vec.back
    by_cases hs : v.mSize - 1 < v.capacity / 2
    · simp [hm, hs, Vec.popped, Vec.shrink, Except.map]
      intro i hi
      simp [hi, Nat.ne_of_lt hi]
    · simp [hm, hs, Vec.popped, Except.map]
      intro i hi
      simp [Nat.ne_of_lt hi]

/-- Sample state for the C5 witness: two live elements, capacity 8, so the
successful pop shrinks the capacity to 4. -/
def c5Sample : Vec Nat :=
  ⟨2, 8, fun i => if i < 2 then some i else none, true⟩

/-- C5 witness: on the sample, `pop_back` succeeds, the size drops to 1 and
the shrink fires, ending at capacity 4. -/
theorem c5_witness :
    c5Sample.mSize ≠ 0 ∧
    c5Sample.popBack.map Vec.mSize = Except.ok 1 ∧
    c5Sample.popBack.map Vec.capacity = Except.ok 4 :=
  ⟨by decide, ((c5_pop_front_back_empty c5Sample).2.2.2 (by decide)).1,
   ((c5_pop_front_back_empty c5Sample).2.2.2 (by decide)).2.1⟩

/-- Growing always leaves a non-null `data` pointer. -/
lemma grow_alloc {T : Type} (v : Vec T) : v.grow.alloc = true := by
  cases hv : v.alloc <;> simp [Vec.grow, hv]

/-- Likewise for the list-append growth path. -/
lemma initGrow_alloc {T : Type} (v : Vec T) (c : Nat) : (v.initGrow c).alloc = true := by
  cases hv : v.alloc <;> simp [Vec.initGrow, hv]

/-- The appending loop never touches the `data` pointer. -/
lemma writeAtEndAll_alloc {T : Type} (l : List T) (v : Vec T) :
    (v.writeAtEndAll l).alloc = v.alloc := by
  induction l generalizing v with
  | nil => rfl
  | cons x xs ih =>
    show ((v.writeAtEnd x).writeAtEndAll xs).alloc = v.alloc
    rw [ih]
    rfl

/-- Vector states reachable through the public interface: the three
constructors, `push_back` (single element and initializer-list overloads),
`emplace_back`, a successful `pop_back`, `clear`, copy
construction/assignment, and being the source of a move (the target of a move
takes the source's state verbatim, and `operator+` is a copy followed by
pushes, so neither adds new states). -/
inductive Reach {T : Type} : Vec T → Prop where
  | ofDefault : Reach Vec.mkDefault
  | ofCap (c : Nat) : Reach (Vec.mkCap c)
  | ofList (l : List T) : Reach (Vec.mkList l)
  | push {v : Vec T} (x : T) : Reach v → Reach (v.pushBack x)
  | emplace {v : Vec T} (x : T) : Reach v → Reach (v.emplaceBack x)
  | pushList {v : Vec T} (l : List T) : Reach v → Reach (v.pushBackList l)
  | pop {v w : Vec T} : Reach v → v.popBack = Except.ok w → Reach w
  | clearStep {v : Vec T} : Reach v → Reach v.clear
  | copyStep {v : Vec T} : Reach v → Reach v.copy
  | moveSrc {v : Vec T} : Reach v → Reach Vec.movedReset

/-- C4 counterexample: the claimed invariant "capacity == 0 implies the
storage pointer is null" fails on the explicit-capacity constructor with
capacity 0: `Vector(0)` calls `::operator new(0)`, which returns a non-null
pointer, so the state is reachable, has capacity 0 and holds an
allocation. -/
theorem c4_capacity_zero_counterexample :
    ¬ (∀ v : Vec Nat, Reach v → v.capacity = 0 → v.alloc = false) := by
  intro h
  exact absurd (h (Vec.mkCap 0) (Reach.ofCap 0) rfl) (by simp [Vec.mkCap])

/-- A successful `pop_back` keeps the `data` pointer and needs a non-zero
size. -/
lemma popBack_ok_alloc {T : Type} {v w : Vec T} (heq : v.popBack = Except.ok w) :
    w.alloc = v.alloc ∧ v.mSize ≠ 0 := by
  unfold Vec.popBack at heq
  by_cases hm : v.mSize = 0
  · rw [if_neg (by simp [hm])] at heq
    exact Except.noConfusion heq
  · refine ⟨?_, hm⟩
    rw [if_pos hm] at heq
    by_cases hs : v.popped.mSize < v.capacity / 2
    · rw [if_pos hs] at heq
      cases heq
      rfl
    · rw [if_neg hs] at heq
      cases heq
      rfl

/-- C4 amended: in every reachable state the converse direction holds — a
null storage pointer implies capacity 0 (and size 0).  The original direction
is refuted by `c4_capacity_zero_counterexample`. -/
theorem c4_null_storage_inv {T : Type} (v : Vec T) (hv : Reach v)
    (h : v.alloc = false) : v.capacity = 0 ∧ v.mSize = 0 := by
  induction hv with
  | ofDefault => exact ⟨rfl, rfl⟩
  | ofCap c => exact absurd h (by simp [Vec.mkCap])
  | ofList l => exact absurd h (by simp [Vec.mkList])
  | push x hr ih =>
    rename_i v0
    by_cases hc : v0.capacity ≤ v0.mSize
    · have htrue : (v0.pushBack x).alloc = true := by
        unfold Vec.pushBack
        rw [if_pos hc]
        exact grow_alloc v0
      rw [htrue] at h
      exact Bool.noConfusion h
    · have hA : (v0.pushBack x).alloc = v0.alloc := by
        unfold Vec.pushBack
        rw [if_neg hc]
        rfl
      rw [hA] at h
      have h2 := ih h
      omega
  | emplace x hr ih =>
    rename_i v0
    by_cases hc : v0.capacity ≤ v0.mSize
    · have htrue : (v0.emplaceBack x).alloc = true := by
        unfold Vec.emplaceBack
        rw [if_pos hc]
        exact grow_alloc v0
      rw [htrue] at h
      exact Bool.noConfusion h
    · have hA : (v0.emplaceBack x).alloc = v0.alloc := by
        unfold Vec.emplaceBack
        rw [if_neg hc]
        rfl
      rw [hA] at h
      have h2 := ih h
      omega
  | pushList l hr ih =>
    rename_i v0
    by_cases hc : v0.capacity ≤ v0.mSize + l.length
    · have htrue : (v0.pushBackList l).alloc = true := by
        unfold Vec.pushBackList
        rw [if_pos hc, writeAtEndAll_alloc]
        exact initGrow_alloc v0 _
      rw [htrue] at h
      exact Bool.noConfusion h
    · have hA : (v0.pushBackList l).alloc = v0.alloc := by
        unfold Vec.pushBackList
        rw [if_neg hc, writeAtEndAll_alloc]
      rw [hA] at h
      have h2 := ih h
      omega
  | pop hr heq ih =>
    have hp := popBack_ok_alloc heq
    have h2 := ih (hp.1.symm.trans h)
    exact absurd h2.2 hp.2
  | clearStep hr ih =>
    exact ⟨(ih h).1, rfl⟩
  | copyStep hr ih =>
    exact absurd h (by simp [Vec.copy])
  | moveSrc hr ih =>
    exact ⟨rfl, rfl⟩

/-- C4 witness: the default-constructed Vector is reachable, has a null
storage pointer, and indeed has capacity 0 and size 0. -/
theorem c4_witness :
    (Vec.mkDefault (T := Nat)).alloc = false ∧
    (Vec.mkDefault (T := Nat)).capacity = 0 ∧ (Vec.mkDefault (T := Nat)).mSize = 0 :=
  ⟨rfl, (c4_null_storage_inv Vec.mkDefault Reach.ofDefault rfl).1,
   (c4_null_storage_inv Vec.mkDefault Reach.ofDefault rfl).2⟩

/-- Behaviour of the forward walking loop of `advance` when the iterator does
not start beyond `mEnd`: it takes `min r (mEnd - mPtr)` steps and ends that
far to the right, checking the bound before every step. -/
lemma advFwd_spec (r : Nat) (it : VIter) (he : it.mPtr ≤ it.mEnd) :
    (it.advFwd r).1 = min r (it.mEnd - it.mPtr).toNat ∧
    (it.advFwd r).2 =
      ⟨it.mPtr + ((min r (it.mEnd - it.mPtr).toNat : Nat) : Int),
       it.mBegin, it.mEnd⟩ := by
  induction r generalizing it with
  | zero =>
    constructor
    · show (0 : Nat) = min 0 (it.mEnd - it.mPtr).toNat
      omega
    · show it = ⟨it.mPtr + ((min 0 (it.mEnd - it.mPtr).toNat : Nat) : Int),
                 it.mBegin, it.mEnd⟩
      have h0 : ((min 0 (it.mEnd - it.mPtr).toNat : Nat) : Int) = 0 := by omega
      rw [h0, add_zero]
  | succ n ih =>
    unfold VIter.advFwd
    by_cases h : it.mPtr = it.mEnd
    · rw [if_neg (by simp [h])]
      have h0 : (it.mEnd - it.mPtr).toNat = 0 := by omega
      rw [h0]
      constructor
      · show (0 : Nat) = min (n + 1) 0
        omega
      · show it = ⟨it.mPtr + ((min (n + 1) 0 : Nat) : Int), it.mBegin, it.mEnd⟩
        have h1 : ((min (n + 1) 0 : Nat) : Int) = 0 := by omega
        rw [h1, add_zero]
    · rw [if_pos h]
      have ih1 : (VIter.advFwd ⟨it.mPtr + 1, it.mBegin, it.mEnd⟩ n).1
          = min n (it.mEnd - (it.mPtr + 1)).toNat :=
        (ih ⟨it.mPtr + 1, it.mBegin, it.mEnd⟩ (show it.mPtr + 1 ≤ it.mEnd by omega)).1
      have ih2 : (VIter.advFwd ⟨it.mPtr + 1, it.mBegin, it.mEnd⟩ n).2
          = ⟨it.mPtr + 1 + ((min n (it.mEnd - (it.mPtr + 1)).toNat : Nat) : Int),
             it.mBegin, it.mEnd⟩ :=
        (ih ⟨it.mPtr + 1, it.mBegin, it.mEnd⟩ (show it.mPtr + 1 ≤ it.mEnd by omega)).2
      constructor
      · show (VIter.advFwd ⟨it.mPtr + 1, it.mBegin, it.mEnd⟩ n).1 + 1
            = min (n + 1) (it.mEnd - it.mPtr).toNat
        rw [ih1]
        omega
      · show (VIter.advFwd ⟨it.mPtr + 1, it.mBegin, it.mEnd⟩ n).2
            = ⟨it.mPtr + ((min (n + 1) (it.mEnd - it.mPtr).toNat : Nat) : Int),
               it.mBegin, it.mEnd⟩
        rw [ih2]
        congr 1
        omega

/-- Behaviour of the backward walking loop of `advance` when the iterator does
not start before `mBegin`: it takes `min r (mPtr - mBegin)` steps leftward. -/
lemma advBwd_spec (r : Nat) (it : VIter) (hb : it.mBegin ≤ it.mPtr) :
    (it.advBwd r).1 = min r (it.mPtr - it.mBegin).toNat ∧
    (it.advBwd r).2 =
      ⟨it.mPtr - ((min r (it.mPtr - it.mBegin).toNat : Nat) : Int),
       it.mBegin, it.mEnd⟩ := by
  induction r generalizing it with
  | zero =>
    constructor
    · show (0 : Nat) = min 0 (it.mPtr - it.mBegin).toNat
      omega
    · show it = ⟨it.mPtr - ((min 0 (it.mPtr - it.mBegin).toNat : Nat) : Int),
                 it.mBegin, it.mEnd⟩
      have h0 : ((min 0 (it.mPtr - it.mBegin).toNat : Nat) : Int) = 0 := by omega
      rw [h0, sub_zero]
  | succ n ih =>
    unfold VIter.advBwd
    by_cases h : it.mPtr = it.mBegin
    · rw [if_neg (by simp [h])]
      have h0 : (it.mPtr - it.mBegin).toNat = 0 := by omega
      rw [h0]
      constructor
      · show (0 : Nat) = min (n + 1) 0
        omega
      · show it = ⟨it.mPtr - ((min (n + 1) 0 : Nat) : Int), it.mBegin, it.mEnd⟩
        have h1 : ((min (n + 1) 0 : Nat) : Int) = 0 := by omega
        rw [h1, sub_zero]
    · rw [if_pos h]
      have ih1 : (VIter.advBwd ⟨it.mPtr - 1, it.mBegin, it.mEnd⟩ n).1
          = min n ((it.mPtr - 1) - it.mBegin).toNat :=
        (ih ⟨it.mPtr - 1, it.mBegin, it.mEnd⟩ (show it.mBegin ≤ it.mPtr - 1 by omega)).1
      have ih2 : (VIter.advBwd ⟨it.mPtr - 1, it.mBegin, it.mEnd⟩ n).2
          = ⟨it.mPtr - 1 - ((min n ((it.mPtr - 1) - it.mBegin).toNat : Nat) : Int),
             it.mBegin, it.mEnd⟩ :=
        (ih ⟨it.mPtr - 1, it.mBegin, it.mEnd⟩ (show it.mBegin ≤ it.mPtr - 1 by omega)).2
      constructor
      · show (VIter.advBwd ⟨it.mPtr - 1, it.mBegin, it.mEnd⟩ n).1 + 1
            = min (n + 1) (it.mPtr - it.mBegin).toNat
        rw [ih1]
        omega
      · show (VIter.advBwd ⟨it.mPtr - 1, it.mBegin, it.mEnd⟩ n).2
            = ⟨it.mPtr - ((min (n + 1) (it.mPtr - it.mBegin).toNat : Nat) : Int),
               it.mBegin, it.mEnd⟩
        rw [ih2]
        congr 1
        omega

/-- C8 counterexample: on `begin()` of a one-element Vector, `advance(2)`
walks one step, reaches `mEnd` with only 1 of 2 steps taken, and fails with
`InvalidArgumentError` (`std::invalid_argument`) — not with `OutOfRangeError`
as the claim states for a walk that would cross `end`.  (The repository's own
test asserts `std::invalid_argument` for exactly this situation.) -/
theorem c8_advance_counterexample :
    ((Vec.mkList [(5 : Nat)]).beginIter 0).advance 2
        = Except.error VErr.invalidArgument ∧
    ((Vec.mkList [(5 : Nat)]).beginIter 0).advance 2
        ≠ Except.error VErr.outOfRange := by
  refine ⟨rfl, fun h => ?_⟩
  rw [show ((Vec.mkList [(5 : Nat)]).beginIter 0).advance 2
        = Except.error VErr.invalidArgument from rfl] at h
  simp at h

/-- C8 amended: for an iterator positioned inside its envelope
(`mBegin ≤ mPtr ≤ mEnd`), `advance(d)` walks one slot at a time checking the
bound on every step; it never fails with `OutOfRangeError`; started at `mEnd`
or at `mBegin - 1` it fails with `InvalidStateError`; otherwise it succeeds
and lands `d` slots away exactly when the walk fits inside the envelope, and
fails with `InvalidArgumentError` when the walk stops at the boundary before
covering the full requested distance. -/
theorem c8_advance_charact (it : VIter) (d : Int)
    (hb : it.mBegin ≤ it.mPtr) (he : it.mPtr ≤ it.mEnd) :
    it.advance d ≠ Except.error VErr.outOfRange ∧
    ((it.mPtr = it.mEnd ∨ it.mPtr = it.mBegin - 1) →
      it.advance d = Except.error VErr.invalidState) ∧
    (it.mPtr ≠ it.mEnd → it.mPtr ≠ it.mBegin - 1 → 0 < d →
      (d ≤ it.mEnd - it.mPtr →
        it.advance d = Except.ok ⟨it.mPtr + d, it.mBegin, it.mEnd⟩) ∧
      (it.mEnd - it.mPtr < d →
        it.advance d = Except.error VErr.invalidArgument)) ∧
    (it.mPtr ≠ it.mEnd → it.mPtr ≠ it.mBegin - 1 → d ≤ 0 →
      (it.mBegin ≤ it.mPtr + d →
        it.advance d = Except.ok ⟨it.mPtr + d, it.mBegin, it.mEnd⟩) ∧
      (it.mPtr + d < it.mBegin →
        it.advance d = Except.error VErr.invalidArgument)) := by
  unfold VIter.advance
  by_cases hv : it.mPtr ≠ it.mEnd ∧ it.mPtr ≠ it.mBegin - 1
  · rw [if_pos hv]
    by_cases hd : 0 < d
    · rw [if_pos hd]
      rw [(advFwd_spec d.toNat it he).1, (advFwd_spec d.toNat it he).2]
      by_cases hr : d ≤ it.mEnd - it.mPtr
      · have hc : ((min d.toNat (it.mEnd - it.mPtr).toNat : Nat) : Int) = d := by
          omega
        rw [if_pos hc, hc]
        refine ⟨by simp, fun hor => ?_,
          fun _ _ _ => ⟨fun _ => rfl, fun hlt => absurd hlt (by omega)⟩,
          fun _ _ hd0 => absurd hd0 (by omega)⟩
        rcases hor with h | h
        exacts [absurd h hv.1, absurd h hv.2]
      · have hc : ¬ ((min d.toNat (it.mEnd - it.mPtr).toNat : Nat) : Int) = d := by
          omega
        rw [if_neg hc]
        refine ⟨by simp, fun hor => ?_,
          fun _ _ _ => ⟨fun hle => absurd hle (by omega), fun _ => rfl⟩,
          fun _ _ hd0 => absurd hd0 (by omega)⟩
        rcases hor with h | h
        exacts [absurd h hv.1, absurd h hv.2]
    · rw [if_neg hd]
      rw [(advBwd_spec (-d).toNat it hb).1, (advBwd_spec (-d).toNat it hb).2]
      by_cases hr : it.mBegin ≤ it.mPtr + d
      · have hc : -((min (-d).toNat (it.mPtr - it.mBegin).toNat : Nat) : Int) = d := by
          omega
        have hc2 : it.mPtr - ((min (-d).toNat (it.mPtr - it.mBegin).toNat : Nat) : Int)
            = it.mPtr + d := by omega
        rw [if_pos hc, hc2]
        refine ⟨by simp, fun hor => ?_,
          fun _ _ hd3 => absurd hd3 (by omega),
          fun _ _ _ => ⟨fun _ => rfl, fun hlt => absurd hlt (by omega)⟩⟩
        rcases hor with h | h
        exacts [absurd h hv.1, absurd h hv.2]
      · have hc : ¬ (-((min (-d).toNat (it.mPtr - it.mBegin).toNat : Nat) : Int) = d) := by
          omega
        rw [if_neg hc]
        refine ⟨by simp, fun hor => ?_,
          fun _ _ hd3 => absurd hd3 (by omega),
          fun _ _ _ => ⟨fun hle => absurd hle (by omega), fun _ => rfl⟩⟩
        rcases hor with h | h
        exacts [absurd h hv.1, absurd h hv.2]
  · rw [if_neg hv]
    refine ⟨by simp, fun _ => rfl,
      fun hne hnb _ => absurd ⟨hne, hnb⟩ hv,
      fun hne hnb _ => absurd ⟨hne, hnb⟩ hv⟩

/-- C8 witness: from `⟨0, 0, 3⟩` (the `begin()` of a three-element Vector),
`advance(2)` succeeds and lands at position 2. -/
theorem c8_witness :
    ((⟨0, 0, 3⟩ : VIter).mBegin ≤ (⟨0, 0, 3⟩ : VIter).mPtr) ∧
    ((⟨0, 0, 3⟩ : VIter).mPtr ≤ (⟨0, 0, 3⟩ : VIter).mEnd) ∧
    VIter.advance ⟨0, 0, 3⟩ 2 = Except.ok ⟨0 + 2, 0, 3⟩ :=
  ⟨by decide, by decide,
   ((c8_advance_charact ⟨0, 0, 3⟩ 2 (by decide) (by decide)).2.2.1
     (by decide) (by decide) (by decide)).1 (by decide)⟩

end DSCpp
